import Mathlib

/-!
Verification of the `Labeling` pipeline (`pipelines/labeling.py`).

The pipeline synthesizes fake ground-truth labels for unlabeled inference
records. We shallowly embed its three pieces:

* the label generator `_get_label`, which keeps the model's prediction with
  probability `ground_truth_quality` and otherwise picks uniformly from the
  fixed three-species label set;
* the SQLite adapter `_label_sqlite_data`, modelled as a pure function from a
  list of table rows (plus a stream of random draws) to the updated table,
  together with a trace of the SQLite operations it performs;
* the SageMaker/S3 adapter `_label_sagemaker_data`, modelled as a pure
  function producing either a result value or a raised error, together with a
  trace of the S3 operations it performs.

Randomness is modelled by a stream `Nat → Draw`, where a `Draw` bundles the
value of one `random.random()` call (a rational in `[0,1)`) and the index
picked by one `random.choice` call over the three labels.  Python floats are
modelled as rationals.
-/

namespace Labeling

/-- Result of the random draws consumed by one `_get_label` call: `r` is the
value returned by `random.random()` (uniform in `[0,1)`), and `choice` is the
index that `random.choice` would pick from a three-element list. -/
structure Draw where
  r : ℚ
  choice : Fin 3
deriving DecidableEq

/-- The fixed label list `["Adelie", "Chinstrap", "Gentoo"]` passed to
`random.choice` in `_get_label`. -/
def labelSet : List String := ["Adelie", "Chinstrap", "Gentoo"]

/-- Embedding of `Labeling._get_label`: return `prediction` when
`random.random() < self.ground_truth_quality`, otherwise a random choice from
`labelSet`. -/
def get_label (quality : ℚ) (prediction : String) (d : Draw) : String :=
  if d.r < quality then prediction else labelSet.get (Fin.cast (by rfl) d.choice)

/-- Embedding of Python's `str.startswith`, used by the `start` step to
dispatch on the datastore URI scheme. -/
def startswith (s pre : String) : Bool := List.isPrefixOf pre.data s.data

lemma get_label_of_lt {quality : ℚ} {pred : String} {d : Draw} (h : d.r < quality) :
    get_label quality pred d = pred := by
  simp [get_label, h]

lemma get_label_of_not_lt {quality : ℚ} {pred : String} {d : Draw} (h : ¬ d.r < quality) :
    get_label quality pred d = labelSet.get (Fin.cast (by rfl) d.choice) := by
  simp [get_label, h]

lemma get_label_mem_or_eq (quality : ℚ) (pred : String) (d : Draw) :
    get_label quality pred d = pred ∨ get_label quality pred d ∈ labelSet := by
  by_cases h : d.r < quality
  · exact Or.inl (get_label_of_lt h)
  · exact Or.inr (by rw [get_label_of_not_lt h]; exact List.get_mem _ _ _)

/-- C1: for every prediction and every draw with `0 ≤ r < 1`, `_get_label`
returns the prediction exactly when `r < keep_probability`, and otherwise the
uniformly chosen element of the fixed three-label set; `keep_probability = 1`
always keeps the prediction and `keep_probability = 0` always re-samples. -/
theorem C1_get_label_spec (quality : ℚ) (pred : String) (d : Draw)
    (h0 : 0 ≤ d.r) (h1 : d.r < 1) :
    (d.r < quality → get_label quality pred d = pred) ∧
    (¬ d.r < quality →
      get_label quality pred d = labelSet.get (Fin.cast (by rfl) d.choice) ∧
      get_label quality pred d ∈ labelSet) ∧
    (quality = 1 → get_label quality pred d = pred) ∧
    (quality = 0 → get_label quality pred d = labelSet.get (Fin.cast (by rfl) d.choice)) := by
  refine ⟨fun h => get_label_of_lt h, fun h => ?_, fun hq => ?_, fun hq => ?_⟩
  · exact ⟨get_label_of_not_lt h, by rw [get_label_of_not_lt h]; exact List.get_mem _ _ _⟩
  · exact get_label_of_lt (hq ▸ h1)
  · exact get_label_of_not_lt (by rw [hq]; exact not_lt.mpr h0)

/-- Witness for C1 at a concrete draw. -/
theorem C1_get_label_spec_witness :
    (0 : ℚ) ≤ 0 ∧ (0 : ℚ) < 1 ∧
    (((0 : ℚ) < (1 : ℚ) → get_label 1 "Adelie" ⟨0, 2⟩ = "Adelie") ∧
     (¬ (0 : ℚ) < (1 : ℚ) →
       get_label 1 "Adelie" ⟨0, 2⟩ = labelSet.get (Fin.cast (by rfl) (2 : Fin 3)) ∧
       get_label 1 "Adelie" ⟨0, 2⟩ ∈ labelSet) ∧
     ((1 : ℚ) = 1 → get_label 1 "Adelie" ⟨0, 2⟩ = "Adelie") ∧
     ((1 : ℚ) = 0 → get_label 1 "Adelie" ⟨0, 2⟩ = labelSet.get (Fin.cast (by rfl) (2 : Fin 3)))) :=
  ⟨by decide, by decide, C1_get_label_spec 1 "Adelie" ⟨0, 2⟩ (by decide) (by decide)⟩

/-- C8: `_get_label` is total in the quality parameter, which is never
validated: for every rational quality and every draw with `0 ≤ r < 1` the
result is the prediction or an element of the label set, every quality `≥ 1`
behaves exactly like `1` (always keep), and every quality `≤ 0` behaves
exactly like `0` (always re-sample). -/
theorem C8_get_label_total (quality : ℚ) (pred : String) (d : Draw)
    (h0 : 0 ≤ d.r) (h1 : d.r < 1) :
    (get_label quality pred d = pred ∨ get_label quality pred d ∈ labelSet) ∧
    (1 ≤ quality →
      get_label quality pred d = get_label 1 pred d ∧ get_label quality pred d = pred) ∧
    (quality ≤ 0 →
      get_label quality pred d = get_label 0 pred d ∧
      get_label quality pred d = labelSet.get (Fin.cast (by rfl) d.choice)) := by
  refine ⟨get_label_mem_or_eq quality pred d, fun hq => ?_, fun hq => ?_⟩
  · have hk : d.r < quality := lt_of_lt_of_le h1 hq
    rw [get_label_of_lt hk, get_label_of_lt h1]
    exact ⟨rfl, rfl⟩
  · have hk : ¬ d.r < quality := not_lt.mpr (le_trans hq h0)
    have hk0 : ¬ d.r < (0 : ℚ) := not_lt.mpr h0
    rw [get_label_of_not_lt hk, get_label_of_not_lt hk0]
    exact ⟨rfl, rfl⟩

/-- Witness for C8 at an out-of-range quality value. -/
theorem C8_get_label_total_witness :
    (0 : ℚ) ≤ 0 ∧ (0 : ℚ) < 1 ∧
    ((get_label 2 "Gentoo" ⟨0, 1⟩ = "Gentoo" ∨ get_label 2 "Gentoo" ⟨0, 1⟩ ∈ labelSet) ∧
     (1 ≤ (2 : ℚ) →
       get_label 2 "Gentoo" ⟨0, 1⟩ = get_label 1 "Gentoo" ⟨0, 1⟩ ∧
       get_label 2 "Gentoo" ⟨0, 1⟩ = "Gentoo") ∧
     ((2 : ℚ) ≤ 0 →
       get_label 2 "Gentoo" ⟨0, 1⟩ = get_label 0 "Gentoo" ⟨0, 1⟩ ∧
       get_label 2 "Gentoo" ⟨0, 1⟩ = labelSet.get (Fin.cast (by rfl) (1 : Fin 3)))) :=
  ⟨by decide, by decide, C8_get_label_total 2 "Gentoo" ⟨0, 1⟩ (by decide) (by decide)⟩

/-- Row of the `data` table in the SQLite datastore: `uuid` identifies the
sample, `prediction` is the model's prediction, and `species` is the label
column (`none` models SQL `NULL`, i.e. an unlabeled row). -/
structure Row where
  uuid : String
  prediction : String
  species : Option String
deriving DecidableEq

/-- SQLite operations performed by `_label_sqlite_data`, in order. -/
inductive SqlOp where
  | connect (path : String)
  | query (sql : String)
  | execute (sql label uuid : String)
  | commit
  | close
deriving DecidableEq

/-- Result of `_label_sqlite_data`: the returned count, the final database
contents, and the trace of SQLite operations. -/
structure SqliteResult where
  ret : Nat
  db : List Row
  ops : List SqlOp
deriving DecidableEq

def unlabeledQuery : String := "SELECT * FROM data WHERE species IS NULL"

def updateQuery : String := "UPDATE data SET species = ? WHERE uuid = ?"

/-- Embedding of `SELECT * FROM data WHERE species IS NULL`. -/
def selectUnlabeled (db : List Row) : List Row :=
  db.filter (fun r => r.species = none)

/-- Embedding of `UPDATE data SET species = ? WHERE uuid = ?`: every row whose
`uuid` matches gets its `species` column set. -/
def updateSpecies (db : List Row) (label uuid : String) : List Row :=
  db.map (fun r => if r.uuid = uuid then { r with species := some label } else r)

/-- The `(label, uuid)` pairs produced by the update loop of
`_label_sqlite_data`, one per unlabeled row, consuming one draw each. -/
def buildUpdates (quality : ℚ) (draws : Nat → Draw) : List Row → Nat → List (String × String)
  | [], _ => []
  | r :: rest, i =>
    (get_label quality r.prediction (draws i), r.uuid) :: buildUpdates quality draws rest (i + 1)

/-- Sequential application of the update statements to the database. -/
def applyUpdates (us : List (String × String)) (db : List Row) : List Row :=
  us.foldl (fun acc u => updateSpecies acc u.1 u.2) db

/-- Embedding of `Labeling._label_sqlite_data`.  Note that when the query
returns no unlabeled rows the function returns `0` early, before the
`commit`/`close` calls, so the trace then ends after the query. -/
def label_sqlite_data (quality : ℚ) (datastore_uri : String) (draws : Nat → Draw)
    (db : List Row) : SqliteResult :=
  let df := selectUnlabeled db
  if df.isEmpty then
    { ret := 0, db := db, ops := [SqlOp.connect datastore_uri, SqlOp.query unlabeledQuery] }
  else
    let us := buildUpdates quality draws df 0
    { ret := df.length
      db := applyUpdates us db
      ops := SqlOp.connect datastore_uri :: SqlOp.query unlabeledQuery ::
        (us.map (fun u => SqlOp.execute updateQuery u.1 u.2) ++ [SqlOp.commit, SqlOp.close]) }

/-- Effect of the whole update list on a single row. -/
def applyRow (us : List (String × String)) (r : Row) : Row :=
  us.foldl (fun r u => if r.uuid = u.2 then { r with species := some u.1 } else r) r

lemma applyUpdates_eq_map (us : List (String × String)) (db : List Row) :
    applyUpdates us db = db.map (applyRow us) := by
  induction us generalizing db with
  | nil =>
    symm
    rw [show applyRow [] = fun r => r from rfl]
    exact List.map_id' db
  | cons u us ih =>
    show applyUpdates us (updateSpecies db u.1 u.2) = _
    rw [ih, updateSpecies, List.map_map]
    rfl

lemma applyRow_uuid (us : List (String × String)) (r : Row) :
    (applyRow us r).uuid = r.uuid := by
  induction us generalizing r with
  | nil => rfl
  | cons u us ih =>
    show (applyRow us (if r.uuid = u.2 then { r with species := some u.1 } else r)).uuid = _
    by_cases h : r.uuid = u.2 <;> simp [h, ih]

lemma applyRow_prediction (us : List (String × String)) (r : Row) :
    (applyRow us r).prediction = r.prediction := by
  induction us generalizing r with
  | nil => rfl
  | cons u us ih =>
    show (applyRow us (if r.uuid = u.2 then { r with species := some u.1 } else r)).prediction = _
    by_cases h : r.uuid = u.2 <;> simp [h, ih]

lemma applyRow_of_not_mem (us : List (String × String)) (r : Row)
    (h : r.uuid ∉ us.map Prod.snd) : applyRow us r = r := by
  induction us generalizing r with
  | nil => rfl
  | cons u us ih =>
    have h1 : ¬ r.uuid = u.2 := fun hc => h (by simp [hc])
    have h2 : r.uuid ∉ us.map Prod.snd := by
      intro hc
      exact h (by simp only [List.map_cons, List.mem_cons]; exact Or.inr hc)
    show applyRow us (if r.uuid = u.2 then { r with species := some u.1 } else r) = r
    rw [if_neg h1]
    exact ih r h2

lemma applyRow_isSome_of_isSome (us : List (String × String)) (r : Row)
    (h : r.species.isSome = true) : (applyRow us r).species.isSome = true := by
  induction us generalizing r with
  | nil => exact h
  | cons u us ih =>
    show (applyRow us (if r.uuid = u.2 then { r with species := some u.1 } else r)).species.isSome = true
    by_cases hc : r.uuid = u.2
    · exact ih _ (by simp [hc])
    · rw [if_neg hc]; exact ih r h

lemma applyRow_isSome_of_mem (us : List (String × String)) (r : Row)
    (h : r.uuid ∈ us.map Prod.snd) : (applyRow us r).species.isSome = true := by
  induction us generalizing r with
  | nil => simp at h
  | cons u us ih =>
    show (applyRow us (if r.uuid = u.2 then { r with species := some u.1 } else r)).species.isSome = true
    by_cases hc : r.uuid = u.2
    · exact applyRow_isSome_of_isSome us _ (by simp [hc])
    · rw [if_neg hc]
      refine ih r ?_
      simp only [List.map_cons, List.mem_cons] at h
      exact h.resolve_left hc

lemma buildUpdates_snd (quality : ℚ) (draws : Nat → Draw) (df : List Row) (i : Nat) :
    (buildUpdates quality draws df i).map Prod.snd = df.map Row.uuid := by
  induction df generalizing i with
  | nil => rfl
  | cons r rest ih => simp [buildUpdates, ih]

lemma buildUpdates_length (quality : ℚ) (draws : Nat → Draw) (df : List Row) (i : Nat) :
    (buildUpdates quality draws df i).length = df.length := by
  induction df generalizing i with
  | nil => rfl
  | cons r rest ih => simp [buildUpdates, ih]

/-- Two-row table used to instantiate the local-adapter theorems: one
unlabeled row and one already-labeled row. -/
def dbMixed : List Row :=
  [{ uuid := "a", prediction := "Adelie", species := none },
   { uuid := "b", prediction := "Gentoo", species := some "Gentoo" }]

/-- Table whose single row is already labeled (zero unlabeled rows). -/
def dbLabeledOnly : List Row :=
  [{ uuid := "a", prediction := "Adelie", species := some "Adelie" }]

/-- Table whose single row is unlabeled. -/
def dbOneUnlabeled : List Row :=
  [{ uuid := "a", prediction := "Adelie", species := none }]

/-- C2: the local adapter's query returns exactly the rows whose species is
NULL; after the run every such row (matched by its uuid) carries a non-null
label with uuid and prediction untouched, and every previously labeled row is
unchanged.  The uuid column is assumed unique, as the schema prescribes. -/
theorem C2_sqlite_load_persist (quality : ℚ) (uri : String) (draws : Nat → Draw)
    (db : List Row) (hnd : (db.map Row.uuid).Nodup) :
    (∀ r, r ∈ selectUnlabeled db ↔ r ∈ db ∧ r.species = none) ∧
    (label_sqlite_data quality uri draws db).ret = (selectUnlabeled db).length ∧
    (label_sqlite_data quality uri draws db).db.length = db.length ∧
    (∀ i r, db.get? i = some r →
      (r.species = none →
        ∃ r2, (label_sqlite_data quality uri draws db).db.get? i = some r2 ∧
          r2.species.isSome = true ∧ r2.uuid = r.uuid ∧ r2.prediction = r.prediction) ∧
      (∀ l, r.species = some l →
        (label_sqlite_data quality uri draws db).db.get? i = some r)) := by
  have hmem : ∀ r, r ∈ selectUnlabeled db ↔ r ∈ db ∧ r.species = none := by
    intro r
    simp [selectUnlabeled, List.mem_filter]
  by_cases hdf : (selectUnlabeled db).isEmpty
  · have hnil : selectUnlabeled db = [] := by rwa [List.isEmpty_iff] at hdf
    refine ⟨hmem, ?_, ?_, ?_⟩
    · simp [label_sqlite_data, hdf, hnil]
    · simp [label_sqlite_data, hdf]
    · intro i r hget
      have hrdb : r ∈ db := List.get?_mem hget
      constructor
      · intro hnone
        exfalso
        have hin : r ∈ selectUnlabeled db := (hmem r).mpr ⟨hrdb, hnone⟩
        rw [hnil] at hin
        exact (List.not_mem_nil r) hin
      · intro l hl
        have hget3 : db[i]? = some r := by rw [← List.get?_eq_getElem?]; exact hget
        simp [label_sqlite_data, hdf, hget3]
  · have hres : (label_sqlite_data quality uri draws db).db =
        db.map (applyRow (buildUpdates quality draws (selectUnlabeled db) 0)) := by
      simp [label_sqlite_data, hdf, applyUpdates_eq_map]
    refine ⟨hmem, ?_, ?_, ?_⟩
    · simp [label_sqlite_data, hdf]
    · rw [hres]; exact List.length_map _ _
    · intro i r hget
      have hsnd : (buildUpdates quality draws (selectUnlabeled db) 0).map Prod.snd =
          (selectUnlabeled db).map Row.uuid := buildUpdates_snd _ _ _ _
      have hget2 : (label_sqlite_data quality uri draws db).db.get? i =
          some (applyRow (buildUpdates quality draws (selectUnlabeled db) 0) r) := by
        rw [hres, List.get?_map, hget]
        rfl
      have hrdb : r ∈ db := List.get?_mem hget
      constructor
      · intro hnone
        have hrdf : r ∈ selectUnlabeled db := (hmem r).mpr ⟨hrdb, hnone⟩
        have huuid : r.uuid ∈ (buildUpdates quality draws (selectUnlabeled db) 0).map Prod.snd := by
          rw [hsnd]
          exact List.mem_map_of_mem Row.uuid hrdf
        exact ⟨_, hget2, applyRow_isSome_of_mem _ r huuid, applyRow_uuid _ r,
          applyRow_prediction _ r⟩
      · intro l hl
        have hnm : r.uuid ∉ (buildUpdates quality draws (selectUnlabeled db) 0).map Prod.snd := by
          rw [hsnd]
          intro hcon
          rcases List.mem_map.mp hcon with ⟨r2, hr2df, hr2uuid⟩
          have hr2db : r2 ∈ db := ((hmem r2).mp hr2df).1
          have hr2none : r2.species = none := ((hmem r2).mp hr2df).2
          have heq : r2 = r := List.inj_on_of_nodup_map hnd hr2db hrdb hr2uuid
          rw [heq, hl] at hr2none
          exact Option.noConfusion hr2none
        rw [hget2, applyRow_of_not_mem _ r hnm]

/-- Witness for C2 on the two-row table. -/
theorem C2_sqlite_load_persist_witness :
    (dbMixed.map Row.uuid).Nodup ∧
    ((∀ r, r ∈ selectUnlabeled dbMixed ↔ r ∈ dbMixed ∧ r.species = none) ∧
     (label_sqlite_data 1 "sqlite://penguins.db" (fun _ => ⟨0, 0⟩) dbMixed).ret =
       (selectUnlabeled dbMixed).length ∧
     (label_sqlite_data 1 "sqlite://penguins.db" (fun _ => ⟨0, 0⟩) dbMixed).db.length =
       dbMixed.length ∧
     (∀ i r, dbMixed.get? i = some r →
       (r.species = none →
         ∃ r2, (label_sqlite_data 1 "sqlite://penguins.db"
             (fun _ => ⟨0, 0⟩) dbMixed).db.get? i = some r2 ∧
           r2.species.isSome = true ∧ r2.uuid = r.uuid ∧ r2.prediction = r.prediction) ∧
       (∀ l, r.species = some l →
         (label_sqlite_data 1 "sqlite://penguins.db"
             (fun _ => ⟨0, 0⟩) dbMixed).db.get? i = some r))) :=
  ⟨by decide, C2_sqlite_load_persist 1 "sqlite://penguins.db" (fun _ => ⟨0, 0⟩) dbMixed (by decide)⟩

/-- C7 counterexample: on a table with zero unlabeled rows the adapter
returns early and the trace contains no `close`, so the connection is not
closed, contradicting the claim that it is closed regardless of row count. -/
theorem C7_counterexample :
    SqlOp.close ∉
      (label_sqlite_data 1 "sqlite://penguins.db" (fun _ => ⟨0, 0⟩) dbLabeledOnly).ops := by
  decide

/-- C7 (amended): when at least one unlabeled row is found, the adapter issues
all updates, then a single commit, then closes the connection; when zero
unlabeled rows are found it returns 0 directly after the query, without
committing, closing, or writing. -/
theorem C7_sqlite_commit_close (quality : ℚ) (uri : String) (draws : Nat → Draw)
    (db : List Row) :
    (selectUnlabeled db ≠ [] →
      ∃ us : List (String × String), us.length = (selectUnlabeled db).length ∧
        (label_sqlite_data quality uri draws db).ops =
          SqlOp.connect uri :: SqlOp.query unlabeledQuery ::
            (us.map (fun u => SqlOp.execute updateQuery u.1 u.2) ++
              [SqlOp.commit, SqlOp.close])) ∧
    (selectUnlabeled db = [] →
      (label_sqlite_data quality uri draws db).ops =
        [SqlOp.connect uri, SqlOp.query unlabeledQuery] ∧
      (label_sqlite_data quality uri draws db).ret = 0 ∧
      (label_sqlite_data quality uri draws db).db = db) := by
  constructor
  · intro hne
    have hdf : ¬ (selectUnlabeled db).isEmpty := by simpa [List.isEmpty_iff] using hne
    exact ⟨buildUpdates quality draws (selectUnlabeled db) 0,
      buildUpdates_length _ _ _ _, by simp [label_sqlite_data, hdf]⟩
  · intro hnil
    have hdf : (selectUnlabeled db).isEmpty := by simp [List.isEmpty_iff, hnil]
    exact ⟨by simp [label_sqlite_data, hdf], by simp [label_sqlite_data, hdf],
      by simp [label_sqlite_data, hdf]⟩

/-- Witness for C7 (amended) on a one-row unlabeled table. -/
theorem C7_sqlite_commit_close_witness :
    (selectUnlabeled dbOneUnlabeled ≠ [] →
      ∃ us : List (String × String), us.length = (selectUnlabeled dbOneUnlabeled).length ∧
        (label_sqlite_data 1 "sqlite://penguins.db" (fun _ => ⟨0, 0⟩) dbOneUnlabeled).ops =
          SqlOp.connect "sqlite://penguins.db" :: SqlOp.query unlabeledQuery ::
            (us.map (fun u => SqlOp.execute updateQuery u.1 u.2) ++
              [SqlOp.commit, SqlOp.close])) ∧
    (selectUnlabeled dbOneUnlabeled = [] →
      (label_sqlite_data 1 "sqlite://penguins.db" (fun _ => ⟨0, 0⟩) dbOneUnlabeled).ops =
        [SqlOp.connect "sqlite://penguins.db", SqlOp.query unlabeledQuery] ∧
      (label_sqlite_data 1 "sqlite://penguins.db" (fun _ => ⟨0, 0⟩) dbOneUnlabeled).ret = 0 ∧
      (label_sqlite_data 1 "sqlite://penguins.db" (fun _ => ⟨0, 0⟩) dbOneUnlabeled).db =
        dbOneUnlabeled) :=
  C7_sqlite_commit_close 1 "sqlite://penguins.db" (fun _ => ⟨0, 0⟩) dbOneUnlabeled

/-- C9: the local adapter hands the datastore URI to the connection verbatim:
the first operation of every trace is `connect` with exactly the URI string,
every `connect` in the trace carries that string, and when the URI starts
with `sqlite://` the connected path still starts with the scheme text. -/
theorem C9_sqlite_uri_verbatim (quality : ℚ) (uri : String) (draws : Nat → Draw)
    (db : List Row) :
    (label_sqlite_data quality uri draws db).ops.head? = some (SqlOp.connect uri) ∧
    (∀ p, SqlOp.connect p ∈ (label_sqlite_data quality uri draws db).ops → p = uri) ∧
    (startswith uri "sqlite://" = true →
      ∀ p, SqlOp.connect p ∈ (label_sqlite_data quality uri draws db).ops →
        startswith p "sqlite://" = true) := by
  have hconn : ∀ p, SqlOp.connect p ∈ (label_sqlite_data quality uri draws db).ops → p = uri := by
    intro p hp
    by_cases hdf : (selectUnlabeled db).isEmpty
    · simp [label_sqlite_data, hdf] at hp
      exact hp
    · simp [label_sqlite_data, hdf] at hp
      exact hp
  refine ⟨?_, hconn, fun hsw p hp => by rw [hconn p hp]; exact hsw⟩
  by_cases hdf : (selectUnlabeled db).isEmpty <;> simp [label_sqlite_data, hdf]

/-- Witness for C9 on a one-row table and a sqlite URI. -/
theorem C9_sqlite_uri_verbatim_witness :
    (label_sqlite_data 1 "sqlite://penguins.db" (fun _ => ⟨0, 0⟩) dbOneUnlabeled).ops.head? =
      some (SqlOp.connect "sqlite://penguins.db") ∧
    (∀ p, SqlOp.connect p ∈
        (label_sqlite_data 1 "sqlite://penguins.db" (fun _ => ⟨0, 0⟩) dbOneUnlabeled).ops →
      p = "sqlite://penguins.db") ∧
    (startswith "sqlite://penguins.db" "sqlite://" = true →
      ∀ p, SqlOp.connect p ∈
          (label_sqlite_data 1 "sqlite://penguins.db" (fun _ => ⟨0, 0⟩) dbOneUnlabeled).ops →
        startswith p "sqlite://" = true) :=
  C9_sqlite_uri_verbatim 1 "sqlite://penguins.db" (fun _ => ⟨0, 0⟩) dbOneUnlabeled

/-- Row captured by the SageMaker endpoint: the identifier of the inference
request it belongs to (`event_id`) and the model's prediction. -/
structure RemoteRecord where
  event_id : String
  prediction : String
deriving DecidableEq

/-- Modelled from the spec: `load_unlabeled_data` is imported from the
repository's `sagemaker` module, which is not among the sources here.  Per
the spec it enumerates capture artifacts under the datastore prefix, filters
out identifiers already present under the ground-truth prefix, and returns
the remaining rows with their event identifiers.  We model its result
abstractly as the `captured` argument passed through unchanged; the S3
traffic it performs is recorded as a single `S3Op.read` at the call site. -/
def load_unlabeled_data (captured : List RemoteRecord) : List RemoteRecord := captured

/-- Embedding of Python's `str.split("/")`: split at every slash, keeping
empty fragments, over the character list. -/
def splitSlashAux : List Char → List String
  | [] => [""]
  | c :: rest =>
    match splitSlashAux rest with
    | [] => [String.mk [c]]
    | h :: t => if c = '/' then "" :: h :: t else String.mk (c :: h.data) :: t

/-- Python's `s.split("/")`. -/
def pySplit (s : String) : List String := splitSlashAux s.data

/-- Group keys of `data.groupby("event_id")`: the distinct event ids in
sorted order, as pandas sorts group keys by default. -/
def groupKeys (data : List RemoteRecord) : List String :=
  ((data.map RemoteRecord.event_id).dedup).mergeSort (fun a b => decide (a ≤ b))

/-- Embedding of `data.groupby("event_id")`: each distinct event id paired
with its rows in their original order. -/
def groupby (data : List RemoteRecord) : List (String × List RemoteRecord) :=
  (groupKeys data).map (fun e => (e, data.filter (fun r => r.event_id = e)))

/-- The dictionary serialized for one event: `groundTruthData.data` holds the
labels, `groundTruthData.encoding` the encoding tag, `eventMetadata.eventId`
the event id, and `eventVersion` the version tag. -/
structure GroundTruthRecord where
  data : List String
  encoding : String
  eventId : String
  eventVersion : String
deriving DecidableEq

/-- JSON string literal (models `json.dumps` on strings that need no
escaping, which covers the species labels and uuid-shaped event ids). -/
def jsonString (s : String) : String := "\"" ++ s ++ "\""

/-- Serialization of one event record, matching the field and key order of
the dict built in `_label_sagemaker_data` under `json.dumps`. -/
def dumps (r : GroundTruthRecord) : String :=
  "\x7b\"groundTruthData\": \x7b\"data\": [" ++
    String.intercalate ", " (r.data.map jsonString) ++
    "], \"encoding\": " ++ jsonString r.encoding ++
    "\x7d, \"eventMetadata\": \x7b\"eventId\": " ++ jsonString r.eventId ++
    "\x7d, \"eventVersion\": " ++ jsonString r.eventVersion ++ "\x7d"

/-- Components of `datetime.now(tz=timezone.utc)` used by the strftime
format `%Y/%m/%d/%H/%M%S`. -/
structure Timestamp where
  year : Nat
  month : Nat
  day : Nat
  hour : Nat
  minute : Nat
  second : Nat
deriving DecidableEq

/-- Zero-padding to two digits, as `%m`, `%d`, `%H`, `%M`, `%S` produce. -/
def pad2 (n : Nat) : String := if n < 10 then "0" ++ toString n else toString n

/-- Zero-padding to four digits, as `%Y` produces. -/
def pad4 (n : Nat) : String :=
  if n < 10 then "000" ++ toString n
  else if n < 100 then "00" ++ toString n
  else if n < 1000 then "0" ++ toString n
  else toString n

/-- The strftime format `%Y/%m/%d/%H/%M%S` (no separator between minute and
second). -/
def formatTimestamp (t : Timestamp) : String :=
  pad4 t.year ++ "/" ++ pad2 t.month ++ "/" ++ pad2 t.day ++ "/" ++
    pad2 t.hour ++ "/" ++ pad2 t.minute ++ pad2 t.second

/-- S3 operations performed by `_label_sagemaker_data`, in order:
`createClient` is `boto3.client("s3")`, `read` is the `load_unlabeled_data`
call, and `put` is `s3_client.put_object`. -/
inductive S3Op where
  | createClient
  | read (datastore_uri ground_truth_uri : String)
  | put (bucket key body : String)
deriving DecidableEq

/-- Outcome of `_label_sagemaker_data`: a returned count, a raised
`RuntimeError` for missing configuration, or a raised `IndexError`; each
paired with the trace of S3 operations completed before the outcome. -/
inductive SageResult where
  | ok (ret : Nat) (ops : List S3Op)
  | configError (message : String) (ops : List S3Op)
  | indexError (ops : List S3Op)
deriving DecidableEq

def requiredGroundTruthMessage : String :=
  "The \x27ground-truth-uri\x27 parameter is required."

/-- Labels generated for one event group, one draw per row, in row order. -/
def labelGroup (quality : ℚ) (draws : Nat → Draw) : Nat → List RemoteRecord → List String
  | _, [] => []
  | i, r :: rest =>
    get_label quality r.prediction (draws i) :: labelGroup quality draws (i + 1) rest

/-- Event records built by the `groupby` loop of `_label_sagemaker_data`,
threading the draw counter across groups. -/
def buildRecords (quality : ℚ) (draws : Nat → Draw) :
    Nat → List (String × List RemoteRecord) → List GroundTruthRecord
  | _, [] => []
  | i, (e, rows) :: rest =>
    { data := labelGroup quality draws i rows, encoding := "CSV",
      eventId := e, eventVersion := "0" } ::
      buildRecords quality draws (i + rows.length) rest

/-- Embedding of `Labeling._label_sagemaker_data`.  The missing-parameter
check precedes client creation; the bucket extraction
`ground_truth_uri.split("/")[2]` happens while building the `put_object`
arguments, after the data has been read, and raises `IndexError` when the
split has at most two fragments. -/
def label_sagemaker_data (quality : ℚ) (datastore_uri : String)
    (ground_truth_uri : Option String) (captured : List RemoteRecord)
    (draws : Nat → Draw) (now : Timestamp) : SageResult :=
  match ground_truth_uri with
  | none => SageResult.configError requiredGroundTruthMessage []
  | some gt =>
    if gt = "" then SageResult.configError requiredGroundTruthMessage []
    else
      let data := load_unlabeled_data captured
      let ops := [S3Op.createClient, S3Op.read datastore_uri gt]
      if data.isEmpty then SageResult.ok 0 ops
      else
        let records := buildRecords quality draws 0 (groupby data)
        let payload := String.intercalate "\n" (records.map dumps)
        let key := String.intercalate "/" ((pySplit gt).drop 3) ++
          formatTimestamp now ++ ".jsonl"
        match (pySplit gt).get? 2 with
        | none => SageResult.indexError ops
        | some bucket => SageResult.ok data.length (ops ++ [S3Op.put bucket key payload])

/-- Outcome of the `start` step: dispatch to one of the two adapters, or the
`ValueError` raised for an unsupported scheme. -/
inductive StartResult where
  | sqlite (res : SqliteResult)
  | sagemaker (res : SageResult)
  | invalidUri (message : String)
deriving DecidableEq

def invalidDatastoreMessage : String :=
  "Invalid datastore location. Must be an S3 location in the format \x27s3://bucket/prefix\x27 or a SQLite database file in the format \x27sqlite://path/to/database.db\x27"

/-- Embedding of the `start` step: scheme dispatch over the datastore URI. -/
def start (quality : ℚ) (datastore_uri : String) (ground_truth_uri : Option String)
    (db : List Row) (captured : List RemoteRecord) (draws : Nat → Draw)
    (now : Timestamp) : StartResult :=
  if startswith datastore_uri "sqlite://" then
    StartResult.sqlite (label_sqlite_data quality datastore_uri draws db)
  else if startswith datastore_uri "s3://" then
    StartResult.sagemaker
      (label_sagemaker_data quality datastore_uri ground_truth_uri captured draws now)
  else
    StartResult.invalidUri invalidDatastoreMessage

def S3Op.isPut : S3Op → Bool
  | S3Op.put _ _ _ => true
  | _ => false

lemma startswith_append (a b : String) : startswith (a ++ b) a = true := by
  rw [startswith, String.data_append]
  exact List.isPrefixOf_iff_prefix.mpr (List.prefix_append _ _)

lemma groupKeys_nodup (data : List RemoteRecord) : (groupKeys data).Nodup :=
  ((List.mergeSort_perm _ _).nodup_iff).mpr (List.nodup_dedup _)

lemma mem_groupKeys (data : List RemoteRecord) (e : String) :
    e ∈ groupKeys data ↔ ∃ r ∈ data, r.event_id = e := by
  rw [groupKeys, (List.mergeSort_perm _ _).mem_iff, List.mem_dedup]
  constructor
  · intro h
    rcases List.mem_map.mp h with ⟨r, hr, he⟩
    exact ⟨r, hr, he⟩
  · intro ⟨r, hr, he⟩
    exact List.mem_map.mpr ⟨r, hr, he⟩

lemma buildRecords_mem (quality : ℚ) (draws : Nat → Draw) (i : Nat)
    (gs : List (String × List RemoteRecord)) (rec : GroundTruthRecord)
    (h : rec ∈ buildRecords quality draws i gs) :
    rec.encoding = "CSV" ∧ rec.eventVersion = "0" := by
  induction gs generalizing i with
  | nil => simp [buildRecords] at h
  | cons g rest ih =>
    rw [show g = (g.1, g.2) from rfl, buildRecords] at h
    rcases List.mem_cons.mp h with h1 | h2
    · rw [h1]
      exact ⟨rfl, rfl⟩
    · exact ih _ h2

lemma buildRecords_map_eventId (quality : ℚ) (draws : Nat → Draw) (i : Nat)
    (gs : List (String × List RemoteRecord)) :
    (buildRecords quality draws i gs).map GroundTruthRecord.eventId = gs.map Prod.fst := by
  induction gs generalizing i with
  | nil => rfl
  | cons g rest ih =>
    rw [show g = (g.1, g.2) from rfl, buildRecords]
    simp only [List.map_cons]
    rw [ih]

lemma buildRecords_get? (quality : ℚ) (draws : Nat → Draw) (i : Nat)
    (gs : List (String × List RemoteRecord)) (j : Nat) (g : String × List RemoteRecord)
    (h : gs.get? j = some g) :
    ∃ s, (buildRecords quality draws i gs).get? j =
      some { data := labelGroup quality draws s g.2, encoding := "CSV",
             eventId := g.1, eventVersion := "0" } := by
  induction gs generalizing i j with
  | nil => simp at h
  | cons g0 rest ih =>
    cases j with
    | zero =>
      refine ⟨i, ?_⟩
      have hg : g0 = g := by simpa using h
      rw [show g0 = (g0.1, g0.2) from rfl, buildRecords, ← hg]
      rfl
    | succ j =>
      have h2 : rest.get? j = some g := by simpa using h
      rcases ih (i + g0.2.length) j h2 with ⟨s, hs⟩
      refine ⟨s, ?_⟩
      rw [show g0 = (g0.1, g0.2) from rfl, buildRecords]
      simpa using hs

lemma labelGroup_length (quality : ℚ) (draws : Nat → Draw) (i : Nat)
    (rows : List RemoteRecord) : (labelGroup quality draws i rows).length = rows.length := by
  induction rows generalizing i with
  | nil => rfl
  | cons r rest ih => simp [labelGroup, ih]

lemma labelGroup_get? (quality : ℚ) (draws : Nat → Draw) (i : Nat)
    (rows : List RemoteRecord) (j : Nat) (r : RemoteRecord) (h : rows.get? j = some r) :
    (labelGroup quality draws i rows).get? j =
      some (get_label quality r.prediction (draws (i + j))) := by
  induction rows generalizing i j with
  | nil => simp at h
  | cons r0 rest ih =>
    cases j with
    | zero =>
      have hg : r0 = r := by simpa using h
      rw [labelGroup, ← hg]
      rfl
    | succ j =>
      have h2 : rest.get? j = some r := by simpa using h
      have hs := ih (i + 1) j h2
      rw [labelGroup]
      show (labelGroup quality draws (i + 1) rest).get? j = _
      rw [hs]
      rw [show i + 1 + j = i + (j + 1) from by omega]

/-- Sample inputs used to instantiate the remote-adapter theorems. -/
def capturedSample : List RemoteRecord :=
  [{ event_id := "e1", prediction := "Adelie" },
   { event_id := "e2", prediction := "Gentoo" },
   { event_id := "e1", prediction := "Chinstrap" }]

def gtSample : String := "s3://penguins/ground-truth/"

def dsSample : String := "s3://penguins/datastore/"

def nowSample : Timestamp := { year := 2025, month := 3, day := 7, hour := 14, minute := 30, second := 45 }

def drawsSample : Nat → Draw := fun _ => ⟨0, 2⟩

/-- C5: invoked without a ground-truth location (parameter absent, or empty
and hence falsy), the remote adapter raises the required-parameter error with
an empty operation trace: no client is created, nothing is read or written. -/
theorem C5_sagemaker_missing_ground_truth (quality : ℚ) (ds : String)
    (captured : List RemoteRecord) (draws : Nat → Draw) (now : Timestamp) :
    label_sagemaker_data quality ds none captured draws now =
      SageResult.configError requiredGroundTruthMessage [] ∧
    label_sagemaker_data quality ds (some "") captured draws now =
      SageResult.configError requiredGroundTruthMessage [] := by
  constructor
  · rfl
  · simp [label_sagemaker_data]

/-- C6: a datastore URI matching neither supported scheme makes `start` raise
the `ValueError` without running either adapter, and the error message cites
both supported schemes. -/
theorem C6_start_invalid_scheme (quality : ℚ) (uri : String) (gt : Option String)
    (db : List Row) (captured : List RemoteRecord) (draws : Nat → Draw) (now : Timestamp)
    (hsq : startswith uri "sqlite://" = false) (hs3 : startswith uri "s3://" = false) :
    start quality uri gt db captured draws now =
      StartResult.invalidUri invalidDatastoreMessage ∧
    (∃ a b : String, invalidDatastoreMessage = a ++ "sqlite://" ++ b) ∧
    (∃ a b : String, invalidDatastoreMessage = a ++ "s3://" ++ b) := by
  refine ⟨by simp [start, hsq, hs3], ?_, ?_⟩
  · exact ⟨"Invalid datastore location. Must be an S3 location in the format \x27s3://bucket/prefix\x27 or a SQLite database file in the format \x27",
      "path/to/database.db\x27", by decide⟩
  · exact ⟨"Invalid datastore location. Must be an S3 location in the format \x27",
      "bucket/prefix\x27 or a SQLite database file in the format \x27sqlite://path/to/database.db\x27",
      by decide⟩

/-- Witness for C6 on an http URI. -/
theorem C6_start_invalid_scheme_witness :
    start 1 "http://example.com/penguins" none dbMixed capturedSample drawsSample nowSample =
      StartResult.invalidUri invalidDatastoreMessage ∧
    (∃ a b : String, invalidDatastoreMessage = a ++ "sqlite://" ++ b) ∧
    (∃ a b : String, invalidDatastoreMessage = a ++ "s3://" ++ b) :=
  C6_start_invalid_scheme 1 "http://example.com/penguins" none dbMixed capturedSample
    drawsSample nowSample (by decide) (by decide)

/-- C10: a non-empty ground-truth URI with at most two slash-separated
fragments passes the falsy check, so no configuration error is raised; the
run reads the unlabeled data (trace `createClient, read`) and then stops with
the `IndexError` from `ground_truth_uri.split("/")[2]`, before any write. -/
theorem C10_sagemaker_short_uri_index_error (quality : ℚ) (ds gt : String)
    (captured : List RemoteRecord) (draws : Nat → Draw) (now : Timestamp)
    (hgt : gt ≠ "") (hlen : (pySplit gt).length ≤ 2) (hne : captured ≠ []) :
    label_sagemaker_data quality ds (some gt) captured draws now =
      SageResult.indexError [S3Op.createClient, S3Op.read ds gt] := by
  have hget : (pySplit gt)[2]? = none := by
    rw [← List.get?_eq_getElem?]
    exact List.get?_eq_none.mpr hlen
  simp [label_sagemaker_data, hgt, load_unlabeled_data, hne, hget]

/-- Witness for C10 on a bare bucket name. -/
theorem C10_sagemaker_short_uri_index_error_witness :
    label_sagemaker_data 1 dsSample (some "bucket") capturedSample drawsSample nowSample =
      SageResult.indexError [S3Op.createClient, S3Op.read dsSample "bucket"] :=
  C10_sagemaker_short_uri_index_error 1 dsSample "bucket" capturedSample drawsSample nowSample
    (by decide) (by decide) (by decide)

lemma startswith_append2 (a b c : String) : startswith (a ++ b ++ c) a = true := by
  rw [startswith, String.data_append, String.data_append, List.append_assoc]
  exact List.isPrefixOf_iff_prefix.mpr (List.prefix_append _ _)

lemma label_sagemaker_data_ok (quality : ℚ) (ds gt : String)
    (captured : List RemoteRecord) (draws : Nat → Draw) (now : Timestamp)
    (hgt : gt ≠ "") (hbucket : 2 < (pySplit gt).length) (hne : captured ≠ []) :
    label_sagemaker_data quality ds (some gt) captured draws now =
      SageResult.ok captured.length
        [S3Op.createClient, S3Op.read ds gt,
         S3Op.put ((pySplit gt).get ⟨2, hbucket⟩)
           (String.intercalate "/" ((pySplit gt).drop 3) ++ formatTimestamp now ++ ".jsonl")
           (String.intercalate "\n"
             ((buildRecords quality draws 0 (groupby captured)).map dumps))] := by
  have hget : (pySplit gt)[2]? = some ((pySplit gt).get ⟨2, hbucket⟩) := by
    rw [← List.get?_eq_getElem?]
    exact List.get?_eq_get hbucket
  simp [label_sagemaker_data, hgt, load_unlabeled_data, hne, hget]

/-- C3: for a valid configuration and non-empty unlabeled data, persist
groups rows by event id, builds exactly one record per event carrying that
event's labels in original row order under `groundTruthData.data` with
encoding `"CSV"`, `eventMetadata.eventId` the event id and `eventVersion`
`"0"`, and writes the records joined by newlines as one payload. -/
theorem C3_sagemaker_persist_payload (quality : ℚ) (ds gt : String)
    (captured : List RemoteRecord) (draws : Nat → Draw) (now : Timestamp)
    (hgt : gt ≠ "") (hbucket : 2 < (pySplit gt).length) (hne : captured ≠ []) :
    (groupKeys captured).Nodup ∧
    (∀ e, e ∈ groupKeys captured ↔ ∃ r ∈ captured, r.event_id = e) ∧
    (buildRecords quality draws 0 (groupby captured)).map GroundTruthRecord.eventId =
      groupKeys captured ∧
    (∀ rec ∈ buildRecords quality draws 0 (groupby captured),
      rec.encoding = "CSV" ∧ rec.eventVersion = "0") ∧
    (∀ j e, (groupKeys captured).get? j = some e →
      ∃ s rec, (buildRecords quality draws 0 (groupby captured)).get? j = some rec ∧
        rec.eventId = e ∧
        rec.data = labelGroup quality draws s (captured.filter (fun r => r.event_id = e)) ∧
        rec.data.length = (captured.filter (fun r => r.event_id = e)).length ∧
        (∀ k r, (captured.filter (fun r => r.event_id = e)).get? k = some r →
          rec.data.get? k = some (get_label quality r.prediction (draws (s + k))))) ∧
    (∃ bucket key,
      label_sagemaker_data quality ds (some gt) captured draws now =
        SageResult.ok captured.length
          [S3Op.createClient, S3Op.read ds gt,
           S3Op.put bucket key
             (String.intercalate "\n"
               ((buildRecords quality draws 0 (groupby captured)).map dumps))]) := by
  refine ⟨groupKeys_nodup captured, mem_groupKeys captured, ?_, ?_, ?_, ?_⟩
  · rw [buildRecords_map_eventId, groupby, List.map_map]
    exact List.map_id' _
  · intro rec hrec
    exact buildRecords_mem _ _ _ _ rec hrec
  · intro j e hj
    have hgj : (groupby captured).get? j =
        some (e, captured.filter (fun r => r.event_id = e)) := by
      rw [groupby, List.get?_map, hj]
      rfl
    rcases buildRecords_get? quality draws 0 (groupby captured) j _ hgj with ⟨s, hs⟩
    refine ⟨s, _, hs, rfl, rfl, labelGroup_length quality draws s _, ?_⟩
    intro k r hk
    exact labelGroup_get? quality draws s _ k r hk
  · exact ⟨(pySplit gt).get ⟨2, hbucket⟩,
      String.intercalate "/" ((pySplit gt).drop 3) ++ formatTimestamp now ++ ".jsonl",
      label_sagemaker_data_ok quality ds gt captured draws now hgt hbucket hne⟩

/-- Witness for C3 on a two-event batch (event e1 with two rows, e2 with
one). -/
theorem C3_sagemaker_persist_payload_witness :
    gtSample ≠ "" ∧ 2 < (pySplit gtSample).length ∧ capturedSample ≠ [] ∧
    ((groupKeys capturedSample).Nodup ∧
     (∀ e, e ∈ groupKeys capturedSample ↔ ∃ r ∈ capturedSample, r.event_id = e) ∧
     (buildRecords 1 drawsSample 0 (groupby capturedSample)).map GroundTruthRecord.eventId =
       groupKeys capturedSample ∧
     (∀ rec ∈ buildRecords 1 drawsSample 0 (groupby capturedSample),
       rec.encoding = "CSV" ∧ rec.eventVersion = "0") ∧
     (∀ j e, (groupKeys capturedSample).get? j = some e →
       ∃ s rec, (buildRecords 1 drawsSample 0 (groupby capturedSample)).get? j = some rec ∧
         rec.eventId = e ∧
         rec.data = labelGroup 1 drawsSample s (capturedSample.filter (fun r => r.event_id = e)) ∧
         rec.data.length = (capturedSample.filter (fun r => r.event_id = e)).length ∧
         (∀ k r, (capturedSample.filter (fun r => r.event_id = e)).get? k = some r →
           rec.data.get? k = some (get_label 1 r.prediction (drawsSample (s + k))))) ∧
     (∃ bucket key,
       label_sagemaker_data 1 dsSample (some gtSample) capturedSample drawsSample nowSample =
         SageResult.ok capturedSample.length
           [S3Op.createClient, S3Op.read dsSample gtSample,
            S3Op.put bucket key
              (String.intercalate "\n"
                ((buildRecords 1 drawsSample 0 (groupby capturedSample)).map dumps))])) :=
  ⟨by decide, by decide, by decide,
    C3_sagemaker_persist_payload 1 dsSample gtSample capturedSample drawsSample nowSample
      (by decide) (by decide) (by decide)⟩

/-- C4: for a valid configuration and non-empty unlabeled data, persist
performs exactly one `put_object`, whose key is the joined ground-truth
prefix followed by the UTC timestamp in the form
`year/month/day/hour/minuteSSsecond.jsonl`, and the trace contains no other
write or delete of any object. -/
theorem C4_sagemaker_single_timestamped_write (quality : ℚ) (ds gt : String)
    (captured : List RemoteRecord) (draws : Nat → Draw) (now : Timestamp)
    (hgt : gt ≠ "") (hbucket : 2 < (pySplit gt).length) (hne : captured ≠ []) :
    ∃ bucket body,
      label_sagemaker_data quality ds (some gt) captured draws now =
        SageResult.ok captured.length
          [S3Op.createClient, S3Op.read ds gt,
           S3Op.put bucket
             (String.intercalate "/" ((pySplit gt).drop 3) ++
               (pad4 now.year ++ "/" ++ pad2 now.month ++ "/" ++ pad2 now.day ++ "/" ++
                 pad2 now.hour ++ "/" ++ pad2 now.minute ++ pad2 now.second) ++ ".jsonl")
             body] ∧
      List.countP S3Op.isPut
        [S3Op.createClient, S3Op.read ds gt,
         S3Op.put bucket
           (String.intercalate "/" ((pySplit gt).drop 3) ++
             (pad4 now.year ++ "/" ++ pad2 now.month ++ "/" ++ pad2 now.day ++ "/" ++
               pad2 now.hour ++ "/" ++ pad2 now.minute ++ pad2 now.second) ++ ".jsonl")
           body] = 1 ∧
      startswith
        (String.intercalate "/" ((pySplit gt).drop 3) ++
          (pad4 now.year ++ "/" ++ pad2 now.month ++ "/" ++ pad2 now.day ++ "/" ++
            pad2 now.hour ++ "/" ++ pad2 now.minute ++ pad2 now.second) ++ ".jsonl")
        (String.intercalate "/" ((pySplit gt).drop 3)) = true := by
  refine ⟨(pySplit gt).get ⟨2, hbucket⟩,
    String.intercalate "\n" ((buildRecords quality draws 0 (groupby captured)).map dumps),
    ?_, ?_, startswith_append2 _ _ _⟩
  · have h := label_sagemaker_data_ok quality ds gt captured draws now hgt hbucket hne
    rw [h]
    rfl
  · rfl

/-- Witness for C4 on the sample batch and timestamp. -/
theorem C4_sagemaker_single_timestamped_write_witness :
    gtSample ≠ "" ∧ 2 < (pySplit gtSample).length ∧ capturedSample ≠ [] ∧
    (∃ bucket body,
      label_sagemaker_data 1 dsSample (some gtSample) capturedSample drawsSample nowSample =
        SageResult.ok capturedSample.length
          [S3Op.createClient, S3Op.read dsSample gtSample,
           S3Op.put bucket
             (String.intercalate "/" ((pySplit gtSample).drop 3) ++
               (pad4 nowSample.year ++ "/" ++ pad2 nowSample.month ++ "/" ++
                 pad2 nowSample.day ++ "/" ++ pad2 nowSample.hour ++ "/" ++
                 pad2 nowSample.minute ++ pad2 nowSample.second) ++ ".jsonl")
             body] ∧
      List.countP S3Op.isPut
        [S3Op.createClient, S3Op.read dsSample gtSample,
         S3Op.put bucket
           (String.intercalate "/" ((pySplit gtSample).drop 3) ++
             (pad4 nowSample.year ++ "/" ++ pad2 nowSample.month ++ "/" ++
               pad2 nowSample.day ++ "/" ++ pad2 nowSample.hour ++ "/" ++
               pad2 nowSample.minute ++ pad2 nowSample.second) ++ ".jsonl")
           body] = 1 ∧
      startswith
        (String.intercalate "/" ((pySplit gtSample).drop 3) ++
          (pad4 nowSample.year ++ "/" ++ pad2 nowSample.month ++ "/" ++
            pad2 nowSample.day ++ "/" ++ pad2 nowSample.hour ++ "/" ++
            pad2 nowSample.minute ++ pad2 nowSample.second) ++ ".jsonl")
        (String.intercalate "/" ((pySplit gtSample).drop 3)) = true) :=
  ⟨by decide, by decide, by decide,
    C4_sagemaker_single_timestamped_write 1 dsSample gtSample capturedSample drawsSample
      nowSample (by decide) (by decide) (by decide)⟩

end Labeling
